import Mathlib

/-!
A shallow embedding of the lead-qualification bot in src/index.js, together
with theorems settling the specification claims about it.

Modelling conventions:
* JS null/undefined (and, for the string fields involved here, the falsy empty
  string) is Option.none.
* A promise of the durable store is modelled by StoreCall: none is a call that
  never settles, some (t, r) a call that settles at time t (milliseconds) with
  outcome r (Except.error models a rejected promise).
* Outbound Telegram calls are modelled by injected failure flags (TgFail); a
  failed call rejects, a successful one appends the message to the trace.
* The fixed UX pause (delay 2000) and console logging are not observable in
  this model and are not represented.
-/

namespace PsychoBot

/-- The three emotional states matched by the `state:` callback regex. -/
inductive StateKey
  | anxiety
  | anger
  | apathy
deriving DecidableEq

/-- The raw callback/database string for a state key. -/
def StateKey.str : StateKey → String
  | .anxiety => "anxiety"
  | .anger => "anger"
  | .apathy => "apathy"

/-- The three frequencies matched by the `freq:` callback regex. -/
inductive FreqKey
  | rare
  | weekly
  | daily
deriving DecidableEq

/-- The raw callback/database string for a frequency key. -/
def FreqKey.str : FreqKey → String
  | .rare => "rare"
  | .weekly => "weekly"
  | .daily => "daily"

/-- The sender of an update: ctx.from. -/
structure User where
  id : Nat
  username : Option String
  first_name : Option String
  last_name : Option String
deriving DecidableEq

/-- The message a callback query is attached to: ctx.callbackQuery.message. -/
structure CbMsg where
  chatId : Nat
  messageId : Nat
deriving DecidableEq

/-- ctx.callbackQuery. -/
structure CbQuery where
  message : Option CbMsg
deriving DecidableEq

/-- The parts of a Telegraf context this program reads.  chat models
ctx.chat?.id; a missing fromUser makes every unguarded ctx.from.id access
throw a TypeError, exactly as in JS. -/
structure Ctx where
  chat : Option Nat
  callbackQuery : Option CbQuery
  fromUser : Option User
deriving DecidableEq

/-- Failure injection for the outbound Telegram calls: when a flag is set the
corresponding call rejects. -/
structure TgFail where
  replyFails : Bool
  editFails : Bool
  sendFails : Bool
  adminSendFails : Bool
deriving DecidableEq

/-- The three optional features, toggled by the presence of env variables
(hasSupabase, hasAdmin, hasMariaUrl). -/
structure Env where
  hasSupabase : Bool
  hasAdmin : Bool
  hasMariaUrl : Bool
deriving DecidableEq

/-- One RAM-cache record: the subset of the lead kept in the cache Map,
user_id -> (status, frequency). -/
structure CacheEntry where
  status : Option String := none
  frequency : Option String := none
deriving DecidableEq

/-- The RAM cache: a total map from user id to an optional entry,
modelling the JS Map. -/
def Cache : Type := Nat → Option CacheEntry

/-- cache.set(id, writing status over the spread of the existing entry), as
done in the state handler: the old entry (or an empty one) is kept and only
status is overwritten. -/
def cacheMergeStatus (c : Cache) (uid : Nat) (s : String) : Cache :=
  fun k => if k = uid then some { (c uid).getD {} with status := some s } else c k

/-- cache.set(id, writing frequency over the spread of the existing entry), as
done in the frequency handler. -/
def cacheMergeFrequency (c : Cache) (uid : Nat) (f : String) : Cache :=
  fun k => if k = uid then some { (c uid).getD {} with frequency := some f } else c k

/-- The status component of the cache at a key. -/
def cacheStatusAt (c : Cache) (k : Nat) : Option String :=
  (c k).bind CacheEntry.status

/-- The frequency component of the cache at a key. -/
def cacheFreqAt (c : Cache) (k : Nat) : Option String :=
  (c k).bind CacheEntry.frequency

/-- A row of the leads table, as returned by the select.  Fields the store may
leave null are Options; status/frequency are raw strings as stored. -/
structure Lead where
  user_id : Option Nat := none
  username : Option String := none
  status : Option String := none
  frequency : Option String := none
deriving DecidableEq

/-- The object a settled supabase select resolves with: an error flag and the
(possibly null) row. -/
structure SelectRes where
  error : Bool
  data : Option Lead
deriving DecidableEq

/-- The behaviour of one underlying store call: none never settles; some (t, r)
settles after t ms with outcome r (Except.error = the promise rejects). -/
def StoreCall (α : Type) : Type := Option (Nat × Except String α)

/-- Embeds withTimeout (src/index.js 50-56): Promise.race of the call against a
timer of ms milliseconds; returns settle time and outcome.  If the call has not
settled by ms, the timeout arm rejects with the label. -/
def withTimeout {α : Type} (p : StoreCall α) (ms : Nat) (label : String) :
    Nat × Except String α :=
  match p with
  | none => (ms, Except.error label)
  | some (t, r) => if t ≤ ms then (t, r) else (ms, Except.error label)

/-- A patch passed to upsertLead: only the keys the call sites use. -/
structure Patch where
  status : Option String := none
  frequency : Option String := none
  last_step : Option String := none
deriving DecidableEq

/-- The payload an upsert writes: user metadata spread together with a patch. -/
structure Payload where
  user_id : Option Nat := none
  username : Option String := none
  first_name : Option String := none
  last_name : Option String := none
  status : Option String := none
  frequency : Option String := none
  last_step : Option String := none
deriving DecidableEq

/-- Embeds userMeta (62-70): ctx.from is guarded by a default, so a missing
sender yields all-null metadata rather than a throw. -/
def userMeta (ctx : Ctx) : Payload :=
  match ctx.fromUser with
  | none => {}
  | some u =>
      { user_id := some u.id, username := u.username,
        first_name := u.first_name, last_name := u.last_name }

/-- The upsert payload: the spread of userMeta with the patch (the patch keys
are disjoint from the metadata keys at every call site). -/
def payloadOf (ctx : Ctx) (p : Patch) : Payload :=
  { userMeta ctx with
    status := p.status, frequency := p.frequency, last_step := p.last_step }

/-- What one upsertLead call produced: when it settled, the (caught) outcome
observed by the caller, and the payload it sent (none when supabase is off and
the function returned before building it). -/
structure UpsertOut where
  time : Nat
  result : Except String Unit
  payload : Option Payload

/-- Embeds upsertLead (72-82): early return without supabase; otherwise the
upsert is raced against a 4000 ms timeout and every failure is caught and
logged, so the caller always observes a plain completion. -/
def upsertLead (hasSupabase : Bool) (ctx : Ctx) (patch : Patch)
    (q : StoreCall Unit) : UpsertOut :=
  if hasSupabase = false then { time := 0, result := Except.ok (), payload := none }
  else
    match withTimeout q 4000 "supabase upsert timeout" with
    | (t, _) => { time := t, result := Except.ok (), payload := some (payloadOf ctx patch) }

/-- What one getLead call produced: when it settled and the (caught) outcome. -/
structure GetOut where
  time : Nat
  result : Except String (Option Lead)

/-- Embeds getLead (84-104): null without supabase; otherwise the select is
raced against a 4000 ms timeout; a timeout or rejection is caught and yields
null, a response carrying an error yields null, and a missing row yields
null. -/
def getLead (hasSupabase : Bool) (q : StoreCall SelectRes) : GetOut :=
  if hasSupabase = false then { time := 0, result := Except.ok none }
  else
    match withTimeout q 4000 "supabase select timeout" with
    | (t, Except.error _) => { time := t, result := Except.ok none }
    | (t, Except.ok res) =>
        { time := t, result := Except.ok (if res.error then none else res.data) }

/-- The lead value a caller of getLead actually gets (the result is always
Except.ok; the error arm is unreachable). -/
def getLeadVal (hasSupabase : Bool) (q : StoreCall SelectRes) : Option Lead :=
  match (getLead hasSupabase q).result with
  | Except.ok v => v
  | Except.error _ => none

/-- One COPY.states block. -/
structure StateBlock where
  label : String
  explain : String
  technique : String
deriving DecidableEq

/-- COPY.states for the anxiety key (111-118). -/
def anxietyBlock : StateBlock :=
  { label := "😰 Тревога / Паника",
    explain := "Когда нас накрывает волна тревоги, мозг начинает работать в режиме катастрофизации. Он \"прокручивает\" худшие сценарии будущего так ярко, что тело начинает верить, будто это происходит прямо сейчас. Сердце бьется чаще, дыхание становится поверхностным — это древний механизм защиты, который включился не вовремя. Важно понять: эти мысли — не факты. Сейчас вы находитесь в безопасности, и вашей нервной системе просто нужен физический сигнал, чтобы выйти из режима \"бей или беги\".",
    technique := "Давайте попробуем восстановить ритм через тело. Сделайте глубокий, но спокойный вдох на 4 счета. Представьте, как воздух наполняет легкие до самого низа. Задержите дыхание на 4 счета. Теперь плавно, как через соломинку, выдыхайте на 4 счета, отпуская напряжение из челюсти и плеч. Снова задержка на 4. Повторите этот цикл 5–7 раз. Вы заметите, как с каждым кругом мысли становятся чуть менее громкими, а пульс замедляется." }

/-- COPY.states for the anger key (119-125). -/
def angerBlock : StateBlock :=
  { label := "😡 Гнев / Раздражение",
    explain := "Гнев — это огромный импульс энергии, который возник внутри, чтобы защитить ваши границы или ценности. Если мы его подавляем, он превращается в яд для тела или \"взрывается\" на близких. В этом состоянии бесполезно пытаться \"просто успокоиться\" головой, потому что гнев живет в мышцах. Чтобы он перестал вас затапливать, нам нужно дать этой энергии безопасный выход, сбросить лишнее напряжение через физическое усилие, не причиняя вреда ни себе, ни окружающим.",
    technique := "Прямо сейчас, где бы вы ни были, сожмите кулаки изо всей силы. Напрягите руки, плечи, пресс, даже мышцы лица. Представьте, что вы сжимаете пружину до предела. Держите это напряжение 5–7 секунд... А теперь — резкий, шумный выдох и мгновенное расслабление. Почувствуйте, как тяжесть уходит из рук в пол. Сделайте так трижды. Этот резкий контраст \"напряжение-расслабление\" дает мозгу команду выключить режим атаки." }

/-- COPY.states for the apathy key (126-132). -/
def apathyBlock : StateBlock :=
  { label := "😶‍🌫️ Апатия / Сил нет",
    explain := "Состояние, когда \"сели батарейки\", — это часто не лень, а защитное торможение психики. Когда стресса или неопределенности становится слишком много, система просто выключает свет, чтобы не сгореть от перегруза. В такие моменты бесполезно заставлять себя быть продуктивным. Сейчас ваша задача — не совершить подвиг, а мягко \"заземлиться\", вернуться из вакуума своих мыслей и переживаний в реальный мир, почувствовать опору и вернуть себе контроль над маленькими вещами.",
    technique := "Давайте выполним практику \"5-4-3-2-1\". Медленно оглянитесь вокруг и отметьте 5 предметов синего или зеленого цвета. Прислушайтесь к пространству и выделите 3 разных звука (тик часов, шум за окном, ваше дыхание). Почувствуйте 2 физических ощущения: как одежда касается кожи и как ваши стопы уверенно давят на пол. И, наконец, сделайте один осознанный вдох, чувствуя, как прохладный воздух заходит в ноздри. Вы здесь. Вы в безопасности. Этого на данный момент достаточно." }

/-- COPY.states as a total map over the matched keys. -/
def states : StateKey → StateBlock
  | .anxiety => anxietyBlock
  | .anger => angerBlock
  | .apathy => apathyBlock

/-- COPY.states as the raw-string lookup used on values read back from the
store: an unknown key has no block. -/
def statesLookup : String → Option StateBlock
  | "anxiety" => some anxietyBlock
  | "anger" => some angerBlock
  | "apathy" => some apathyBlock
  | _ => none

/-- COPY.afterTechnique (135-136). -/
def afterTechnique : String :=
  "Я рада, что вы уделили эти несколько минут себе. Даже если стало легче совсем чуть-чуть — это уже важная победа над состоянием.\n\nТакие техники — это бережная \"скорая помощь\". Они помогают не утонуть в моменте, но, к сожалению, не убирают саму причину, по которой вас \"накрывает\". Если эмоции затапливают регулярно, значит, внутри накопился критический объем усталости или неразрешенных ситуаций.\n\nЧтобы я могла лучше понять ваш контекст, скажите — как часто вы ловите себя на таких чувствах в последнее время?"

/-- COPY.offerRare (138-139). -/
def offerRare : String :=
  "Здорово, что в целом вы справляетесь. Но даже редкие вспышки — это повод прислушаться к себе, пока они не стали системой. Если почувствуете, что хотите разобраться в причинах глубже и укрепить свои внутренние опоры — я буду рада помочь вам на консультации. Иногда одного точного разговора достаточно, чтобы вернуть контроль. Приглашаю вас на короткую ознакомительную встречу (30 минут)."

/-- COPY.offerRegular (141-142). -/
def offerRegular : String :=
  "Спасибо за честность. Жить в таком режиме — это огромная, изматывающая нагрузка на вашу нервную систему. Это как ехать на автомобиле, у которого постоянно мигает лампочка перегрева: можно подливать воды, но нужно чинить мотор.\n\nСамопомощь — это важно, но в одиночку найти выход из замкнутого круга бывает очень трудно. Чтобы не довести себя до полного выгорания, я приглашаю вас на короткую ознакомительную встречу (30 минут).\n\nМы в спокойной обстановке разберем вашу ситуацию, найдем главный \"триггер\", который сливает ваш ресурс, и наметим план, как вернуть вам устойчивость и радость. Это будет бережный профессиональный разговор, который ни к чему вас не обязывает."

/-- The FREQUENCY label map (150-154) over the matched keys. -/
def frequencyLabel : FreqKey → String
  | .rare => "Это разовый эпизод (редко)"
  | .weekly => "Стабильно 1–2 раза в неделю"
  | .daily => "Почти каждый день, я в этом живу"

/-- FREQUENCY as the raw-string lookup used on values read back from the
store. -/
def FREQUENCY : String → Option String
  | "rare" => some (frequencyLabel .rare)
  | "weekly" => some (frequencyLabel .weekly)
  | "daily" => some (frequencyLabel .daily)
  | _ => none

/-- The generic retry message of the state handler catch (317). -/
def retryStateText : String := "Что-то пошло не так. Попробуйте ещё раз: /start"

/-- The generic retry message of the done handler catch (328). -/
def retryDoneText : String := "Не получилось продолжить. Давайте заново: /start"

/-- The final booking confirmation (361). -/
def bookFinalText : String := "Принято ✅ Мария свяжется с вами в ближайшее время."

/-- The per-field status resolution of both notification paths:
lead?.status falling back to the cached status. -/
def notifyStatusKey (lead : Option Lead) (mem : CacheEntry) : Option String :=
  (lead.bind Lead.status).orElse fun _ => mem.status

/-- The per-field frequency resolution of both notification paths:
lead?.frequency falling back to the cached frequency. -/
def notifyFreqKey (lead : Option Lead) (mem : CacheEntry) : Option String :=
  (lead.bind Lead.frequency).orElse fun _ => mem.frequency

/-- statusKey rendered for the operator: the label when the key is known, the
raw key when not, an em dash when absent. -/
def humanStatus (k : Option String) : String :=
  match k with
  | none => "—"
  | some s =>
      match statesLookup s with
      | some b => b.label
      | none => s

/-- freqKey rendered for the operator. -/
def humanFreq (k : Option String) : String :=
  match k with
  | none => "—"
  | some f =>
      match FREQUENCY f with
      | some l => l
      | none => f

/-- The username shown to the operator: lead?.username falling back to the
sender's username. -/
def notifyUname (lead : Option Lead) (u : User) : Option String :=
  (lead.bind Lead.username).orElse fun _ => u.username

/-- The id shown to the operator: lead?.user_id falling back to ctx.from.id. -/
def notifyUserId (lead : Option Lead) (u : User) : Nat :=
  (lead.bind Lead.user_id).getD u.id

/-- The four-line admin template built inline by the book handler (390-394):
header, user line, state line, frequency line — and nothing else. -/
def bookAdminText (uname : String) (userId : Nat) (statusHuman freqHuman : String) : String :=
  "Новый лид из бота\n" ++
  ("Пользователь: " ++ uname ++ " (id: " ++ Nat.repr userId ++ ")\n") ++
  ("Состояние: " ++ statusHuman ++ "\n") ++
  ("Частота: " ++ freqHuman ++ "\n")

/-- Embeds buildAdminText (247-258): the same four lines, from an optional
username, plus a profile-link line when the username is present. -/
def buildAdminText (username : Option String) (userId : Nat)
    (statusHuman freqHuman : String) : String :=
  "Новый лид из бота\n" ++
  ("Пользователь: " ++
      (match username with
       | some un => "@" ++ un
       | none => "(без username)") ++ " (id: " ++ Nat.repr userId ++ ")\n") ++
  ("Состояние: " ++ statusHuman ++ "\n") ++
  ("Частота: " ++ freqHuman ++ "\n") ++
  (match username with
   | some un => "Профиль: " ++ ("https://t.me/" ++ un) ++ "\n"
   | none => "")

/-- The admin text computed by the background block of the book handler
(374-394), given the lead the select produced, the cached entry and the
sender. -/
def bookNotifyText (lead : Option Lead) (mem : CacheEntry) (u : User) : String :=
  bookAdminText
    (match notifyUname lead u with
     | some un => "@" ++ un
     | none => "(без username)")
    (notifyUserId lead u)
    (humanStatus (notifyStatusKey lead mem))
    (humanFreq (notifyFreqKey lead mem))

/-- The admin text computed by notifyAdminInBackground (260-286), which goes
through buildAdminText and therefore carries the profile link.  This helper is
defined in the source but never called. -/
def notifyAdminInBackgroundText (lead : Option Lead) (mem : CacheEntry) (u : User) : String :=
  buildAdminText (notifyUname lead u) (notifyUserId lead u)
    (humanStatus (notifyStatusKey lead mem))
    (humanFreq (notifyFreqKey lead mem))

/-- One message delivered to the user: its text and its inline-keyboard rows,
each button given by its callback action id. -/
structure Msg where
  text : String
  buttons : List (List String)
deriving DecidableEq

/-- The single done button under the technique message. -/
def doneButtonRow : List (List String) := [["done"]]

/-- The frequency menu (165-171). -/
def freqMenuRows : List (List String) := [["freq:rare"], ["freq:weekly"], ["freq:daily"]]

/-- The single booking button of the offer message (344). -/
def bookButtonRow : List (List String) := [["book"]]

/-- chatId resolution at the top of sendFinalToUser (173-176):
ctx.chat?.id, else the callback message chat, else ctx.from?.id. -/
def resolveChatId (ctx : Ctx) : Option Nat :=
  ctx.chat.orElse fun _ =>
    ((ctx.callbackQuery.bind CbQuery.message).map CbMsg.chatId).orElse fun _ =>
      ctx.fromUser.map User.id

/-- Whether the triggering interaction carries an editable message
(ctx.callbackQuery?.message?.message_id). -/
def hasCbMsg (ctx : Ctx) : Bool :=
  (ctx.callbackQuery.bind CbQuery.message).isSome

/-- The three delivery channels of sendFinalToUser. -/
inductive AttKind
  | edit
  | send
  | reply
deriving DecidableEq

/-- The outcome of sendFinalToUser: the returned boolean, the attempts made in
order with their outcomes, and the text of the message actually delivered. -/
structure SendRes where
  ok : Bool
  attempts : List (AttKind × Bool)
  delivered : Option String
deriving DecidableEq

/-- Embeds sendFinalToUser (172-207).  Attempt 1 edits the callback message
when one exists; attempt 2 sends directly to the resolved chat id (throwing
"no chatId" when it is absent); attempt 3 is a plain reply.  Each failure is
caught and the next attempt runs; only the last failure yields false. -/
def sendFinalToUser (ctx : Ctx) (fail : TgFail) (text : String) : SendRes :=
  let chatId := resolveChatId ctx
  let attempt3 : List (AttKind × Bool) → SendRes := fun tr =>
    if fail.replyFails then
      { ok := false, attempts := tr ++ [(AttKind.reply, false)], delivered := none }
    else
      { ok := true, attempts := tr ++ [(AttKind.reply, true)], delivered := some text }
  let attempt2 : List (AttKind × Bool) → SendRes := fun tr =>
    match chatId with
    | none => attempt3 (tr ++ [(AttKind.send, false)])
    | some _ =>
        if fail.sendFails then attempt3 (tr ++ [(AttKind.send, false)])
        else { ok := true, attempts := tr ++ [(AttKind.send, true)], delivered := some text }
  match ctx.callbackQuery.bind CbQuery.message with
  | some _ =>
      if fail.editFails then attempt2 [(AttKind.edit, false)]
      else { ok := true, attempts := [(AttKind.edit, true)], delivered := some text }
  | none => attempt2 []

/-- The observable outcome of one step handler: the cache afterwards, the
messages delivered to the user in order, the background upserts it started
(with their eventual, internally-caught outcomes), and whether an error
escaped the handler. -/
structure HandlerRes where
  cache : Cache
  sent : List Msg
  bg : List UpsertOut
  result : Except String Unit

/-- Embeds the state-selection action handler (295-319).  Its whole body is in
a try whose catch replies with the retry text; that last reply is returned, so
its own rejection escapes.  A missing sender makes cache.set throw inside the
try; otherwise the cache is set synchronously, the upsert is fired in the
background, and the explanation then the technique are sent. -/
def stateHandler (env : Env) (ctx : Ctx) (fail : TgFail) (c : Cache)
    (status : StateKey) (q : StoreCall Unit) : HandlerRes :=
  match ctx.fromUser with
  | none =>
      if fail.replyFails then
        { cache := c, sent := [], bg := [], result := Except.error "reply failed" }
      else
        { cache := c, sent := [⟨retryStateText, []⟩], bg := [], result := Except.ok () }
  | some u =>
      let c1 := cacheMergeStatus c u.id status.str
      let bg := [upsertLead env.hasSupabase ctx
        { status := some status.str, last_step := some "technique" } q]
      if fail.replyFails then
        { cache := c1, sent := [], bg := bg, result := Except.error "reply failed" }
      else
        { cache := c1,
          sent := [⟨(states status).explain, []⟩, ⟨(states status).technique, doneButtonRow⟩],
          bg := bg, result := Except.ok () }

/-- Embeds the done action handler (321-330).  Nothing before the reply can
throw; the reply promise is returned from inside the try, so its rejection is
not caught by the handler catch and escapes. -/
def doneHandler (env : Env) (ctx : Ctx) (fail : TgFail) (c : Cache)
    (q : StoreCall Unit) : HandlerRes :=
  { cache := c,
    sent := if fail.replyFails then [] else [⟨afterTechnique, freqMenuRows⟩],
    bg := [upsertLead env.hasSupabase ctx { last_step := some "frequency" } q],
    result := if fail.replyFails then Except.error "reply failed" else Except.ok () }

/-- Embeds the frequency-selection action handler (332-351).  The body has no
try/catch: a missing sender makes cache.set throw and the rejection escapes
with nothing sent.  Otherwise the cache is set, the upsert is started, and the
offer — offerRare for the rare key, offerRegular for the other two — is sent
with the single booking button; a failure of that reply is swallowed by its
own catch. -/
def freqHandler (env : Env) (ctx : Ctx) (fail : TgFail) (c : Cache)
    (frequency : FreqKey) (q : StoreCall Unit) : HandlerRes :=
  match ctx.fromUser with
  | none =>
      { cache := c, sent := [], bg := [],
        result := Except.error "TypeError: ctx.from is undefined" }
  | some u =>
      let c1 := cacheMergeFrequency c u.id frequency.str
      let bg := [upsertLead env.hasSupabase ctx
        { frequency := some frequency.str, last_step := some "offer" } q]
      let offerText := if frequency.str = "rare" then offerRare else offerRegular
      { cache := c1,
        sent := if fail.replyFails then [] else [⟨offerText, bookButtonRow⟩],
        bg := bg, result := Except.ok () }

/-- The observable outcome of the book handler: the delivery of the final
text, the background upsert, the admin text its background block computed
(none when that block threw before building it), whether it reached the
operator channel, and the handler result. -/
structure BookOut where
  final : SendRes
  bg : List UpsertOut
  adminText : Option String
  adminDelivered : Bool
  result : Except String Unit

/-- Embeds the book action handler (354-403).  The upsert is started in the
background, the final text goes through sendFinalToUser, then a detached
block looks the lead up (through getLead), merges with the cache and sends the
admin summary when the operator channel is configured; every failure of that
block is caught internally, so the handler itself always completes. -/
def bookHandler (env : Env) (ctx : Ctx) (fail : TgFail) (c : Cache)
    (qUp : StoreCall Unit) (qSel : StoreCall SelectRes) : BookOut :=
  let bg := [upsertLead env.hasSupabase ctx { last_step := some "booked" } qUp]
  let final := sendFinalToUser ctx fail bookFinalText
  match ctx.fromUser with
  | none =>
      { final := final, bg := bg, adminText := none, adminDelivered := false,
        result := Except.ok () }
  | some u =>
      let lead := getLeadVal env.hasSupabase qSel
      let mem := (c u.id).getD {}
      let text := bookNotifyText lead mem u
      { final := final, bg := bg, adminText := some text,
        adminDelivered := env.hasAdmin && !fail.adminSendFails,
        result := Except.ok () }

/-- Whether an Except value is a plain completion. -/
def exceptIsOk {ε α : Type} : Except ε α → Bool
  | Except.ok _ => true
  | Except.error _ => false

/-- Helper: the settle time of a raced call never exceeds the timeout. -/
theorem withTimeout_time_le {α : Type} (p : StoreCall α) (ms : Nat) (label : String) :
    (withTimeout p ms label).1 ≤ ms := by
  rcases p with _ | ⟨t, r⟩
  · simp [withTimeout]
  · by_cases ht : t ≤ ms <;> simp [withTimeout, ht]

/-- Helper: upsertLead settles within the 4000 ms bound. -/
theorem upsertLead_time_le (h : Bool) (ctx : Ctx) (pa : Patch) (q : StoreCall Unit) :
    (upsertLead h ctx pa q).time ≤ 4000 := by
  cases h
  · simp [upsertLead]
  · rcases q with _ | ⟨t, r⟩
    · simp [upsertLead, withTimeout]
    · by_cases ht : t ≤ 4000 <;> simp [upsertLead, withTimeout, ht]

/-- Helper: getLead settles within the 4000 ms bound. -/
theorem getLead_time_le (h : Bool) (q : StoreCall SelectRes) :
    (getLead h q).time ≤ 4000 := by
  cases h
  · simp [getLead]
  · rcases q with _ | ⟨t, e | r⟩
    · simp [getLead, withTimeout]
    · by_cases ht : t ≤ 4000 <;> simp [getLead, withTimeout, ht]
    · by_cases ht : t ≤ 4000 <;> simp [getLead, withTimeout, ht]

/-- Claim C10: every awaited durable-store call is raced against a 4000 ms
timeout, so the await settles — with the real outcome when the underlying call
settles in time, with the timeout rejection otherwise — within the bound, and
neither upsertLead nor getLead can wait past 4000 ms however the store
behaves. -/
theorem store_calls_bounded_by_timeout {α : Type} (p : StoreCall α) (ms : Nat)
    (label : String) (t : Nat) (r : Except String α) (h : Bool) (ctx : Ctx)
    (pa : Patch) (q : StoreCall Unit) (q2 : StoreCall SelectRes) :
    (withTimeout p ms label).1 ≤ ms ∧
    withTimeout (some (t, r)) ms label
      = (if t ≤ ms then (t, r) else (ms, Except.error label)) ∧
    withTimeout (none : StoreCall α) ms label = (ms, Except.error label) ∧
    (upsertLead h ctx pa q).time ≤ 4000 ∧
    (getLead h q2).time ≤ 4000 :=
  ⟨withTimeout_time_le p ms label, rfl, rfl,
   upsertLead_time_le h ctx pa q, getLead_time_le h q2⟩

/-- Claim C6: the store adapter never throws out of its boundary: upsertLead
always completes plainly whatever the underlying call does, and getLead always
completes, returning an explicit null on timeout, on rejection, on an error
response and on a missing row. -/
theorem store_adapter_never_throws (h : Bool) (ctx : Ctx) (p : Patch)
    (q : StoreCall Unit) (q2 : StoreCall SelectRes) (t : Nat) (e : String)
    (d : Option Lead) :
    (upsertLead h ctx p q).result = Except.ok () ∧
    exceptIsOk (getLead h q2).result = true ∧
    (getLead true none).result = Except.ok none ∧
    (getLead true (some (t, Except.error e))).result = Except.ok none ∧
    (getLead true (some (t, Except.ok ⟨true, d⟩))).result = Except.ok none ∧
    (getLead true (some (t, Except.ok ⟨false, none⟩))).result = Except.ok none := by
  refine ⟨?_, ?_, ?_, ?_, ?_, ?_⟩
  · cases h
    · rfl
    · rcases q with _ | ⟨tu, ru⟩
      · simp [upsertLead, withTimeout]
      · by_cases ht : tu ≤ 4000 <;> simp [upsertLead, withTimeout, ht]
  · cases h
    · rfl
    · rcases q2 with _ | ⟨ts, es | rs⟩
      · simp [getLead, withTimeout, exceptIsOk]
      · by_cases ht : ts ≤ 4000 <;> simp [getLead, withTimeout, ht, exceptIsOk]
      · by_cases ht : ts ≤ 4000 <;> simp [getLead, withTimeout, ht, exceptIsOk]
  · rfl
  · by_cases ht : t ≤ 4000 <;> simp [getLead, withTimeout, ht]
  · by_cases ht : t ≤ 4000 <;> simp [getLead, withTimeout, ht]
  · by_cases ht : t ≤ 4000 <;> simp [getLead, withTimeout, ht]

/-- Witness for C6 at a concrete rejected select: the caller sees a plain
null, no exception. -/
theorem store_adapter_never_throws_witness :
    (getLead true (some (5, Except.error "boom"))).result = Except.ok none :=
  (store_adapter_never_throws true ⟨none, none, none⟩ {} none none 5 "boom" none).2.2.2.1

/-- Claim C7: for every user and every chosen emotional state, after the state
handler runs the cache entry for that user has status exactly the chosen
state, whatever the store configuration, the store behaviour, and the reply
channel do. -/
theorem state_choice_sets_cache_status (env : Env) (chat : Option Nat)
    (cbq : Option CbQuery) (u : User) (fail : TgFail) (c : Cache)
    (s : StateKey) (q : StoreCall Unit) :
    cacheStatusAt ((stateHandler env ⟨chat, cbq, some u⟩ fail c s q).cache) u.id
      = some s.str := by
  cases hrf : fail.replyFails <;>
    simp [stateHandler, hrf, cacheStatusAt, cacheMergeStatus]

/-- Claim C8: processing the same frequency choice twice in succession leaves
the cache exactly as processing it once (last value wins). -/
theorem freq_selection_idempotent_on_cache (env : Env) (chat : Option Nat)
    (cbq : Option CbQuery) (u : User) (fail : TgFail) (c : Cache) (f : FreqKey)
    (q q2 : StoreCall Unit) :
    (freqHandler env ⟨chat, cbq, some u⟩ fail
        ((freqHandler env ⟨chat, cbq, some u⟩ fail c f q).cache) f q2).cache
      = (freqHandler env ⟨chat, cbq, some u⟩ fail c f q).cache := by
  funext k
  by_cases hk : k = u.id <;>
    simp [freqHandler, cacheMergeFrequency, hk]

/-- Claim C9: every cache write is a shallow per-user merge: the frequency
write preserves the cached status, the status write preserves the cached
frequency, a missing entry is created, and entries of other users are never
touched. -/
theorem cache_writes_shallow_merge (env : Env) (chat : Option Nat)
    (cbq : Option CbQuery) (u : User) (fail : TgFail) (c : Cache) (f : FreqKey)
    (s : StateKey) (q : StoreCall Unit) (k : Nat) :
    cacheStatusAt ((freqHandler env ⟨chat, cbq, some u⟩ fail c f q).cache) u.id
        = cacheStatusAt c u.id ∧
    cacheFreqAt ((stateHandler env ⟨chat, cbq, some u⟩ fail c s q).cache) u.id
        = cacheFreqAt c u.id ∧
    (((freqHandler env ⟨chat, cbq, some u⟩ fail c f q).cache) u.id).isSome = true ∧
    (((stateHandler env ⟨chat, cbq, some u⟩ fail c s q).cache) u.id).isSome = true ∧
    (k = u.id ∨ ((freqHandler env ⟨chat, cbq, some u⟩ fail c f q).cache) k = c k) ∧
    (k = u.id ∨ ((stateHandler env ⟨chat, cbq, some u⟩ fail c s q).cache) k = c k) := by
  have hstate : (stateHandler env ⟨chat, cbq, some u⟩ fail c s q).cache
      = cacheMergeStatus c u.id s.str := by
    cases hrf : fail.replyFails <;> simp [stateHandler, hrf]
  have hfreq : (freqHandler env ⟨chat, cbq, some u⟩ fail c f q).cache
      = cacheMergeFrequency c u.id f.str := by
    simp [freqHandler]
  refine ⟨?_, ?_, ?_, ?_, ?_, ?_⟩
  · rw [hfreq]
    cases hc : c u.id <;> simp [cacheStatusAt, cacheMergeFrequency, hc]
  · rw [hstate]
    cases hc : c u.id <;> simp [cacheFreqAt, cacheMergeStatus, hc]
  · rw [hfreq]; simp [cacheMergeFrequency]
  · rw [hstate]; simp [cacheMergeStatus]
  · rcases eq_or_ne k u.id with hk | hk
    · exact Or.inl hk
    · exact Or.inr (by rw [hfreq]; simp [cacheMergeFrequency, hk])
  · rcases eq_or_ne k u.id with hk | hk
    · exact Or.inl hk
    · exact Or.inr (by rw [hstate]; simp [cacheMergeStatus, hk])

/-- Claim C5: the offer reply is selected by the frequency alone: the rare key
gets the softer offerRare, weekly and daily get one and the same offerRegular,
always with the single booking button; and the two offers really differ. -/
theorem freq_offer_selection (env : Env) (chat : Option Nat)
    (cbq : Option CbQuery) (u : User) (ef sf af : Bool) (c : Cache)
    (q : StoreCall Unit) :
    (freqHandler env ⟨chat, cbq, some u⟩ ⟨false, ef, sf, af⟩ c FreqKey.rare q).sent
        = [⟨offerRare, bookButtonRow⟩] ∧
    (freqHandler env ⟨chat, cbq, some u⟩ ⟨false, ef, sf, af⟩ c FreqKey.weekly q).sent
        = [⟨offerRegular, bookButtonRow⟩] ∧
    (freqHandler env ⟨chat, cbq, some u⟩ ⟨false, ef, sf, af⟩ c FreqKey.daily q).sent
        = [⟨offerRegular, bookButtonRow⟩] ∧
    offerRare ≠ offerRegular := by
  refine ⟨rfl, rfl, rfl, ?_⟩
  decide

/-- Witness for C5 at a concrete rare choice. -/
theorem freq_offer_selection_witness :
    (freqHandler ⟨false, false, false⟩ ⟨none, none, some ⟨7, none, none, none⟩⟩
        ⟨false, false, false, false⟩ (fun _ => none) FreqKey.rare none).sent
      = [⟨offerRare, bookButtonRow⟩] :=
  (freq_offer_selection ⟨false, false, false⟩ none none ⟨7, none, none, none⟩
      false false false (fun _ => none) none).1

/-- Claim C1 counterexample: the frequency handler has no catch around its
body — at a context whose sender is missing its body throws, the rejection
escapes the handler, and the user is sent no retry message. -/
theorem freq_handler_error_propagates_cex :
    (freqHandler ⟨false, false, false⟩ ⟨none, none, none⟩ ⟨false, false, false, false⟩
        (fun _ => none) FreqKey.weekly none).result
      = Except.error "TypeError: ctx.from is undefined" ∧
    (freqHandler ⟨false, false, false⟩ ⟨none, none, none⟩ ⟨false, false, false, false⟩
        (fun _ => none) FreqKey.weekly none).sent = [] :=
  ⟨rfl, rfl⟩

/-- Claim C1 (amended): the emotional-state handler (like the done handler)
wraps its body in a catch that sends the generic retry-with-restart message,
so a body error there is swallowed and the user gets the retry text whenever
the reply channel works; the frequency-selection handler has no such catch —
the same body error escapes it and nothing is sent (the booking handler's
body, whose effects are all internally guarded, cannot raise in this model). -/
theorem handler_error_policy_amended (env : Env) (chat : Option Nat)
    (cbq : Option CbQuery) (c : Cache) (ef sf af rf : Bool) (s : StateKey)
    (f : FreqKey) (q : StoreCall Unit) :
    (stateHandler env ⟨chat, cbq, none⟩ ⟨false, ef, sf, af⟩ c s q).result
        = Except.ok () ∧
    (stateHandler env ⟨chat, cbq, none⟩ ⟨false, ef, sf, af⟩ c s q).sent
        = [⟨retryStateText, []⟩] ∧
    (freqHandler env ⟨chat, cbq, none⟩ ⟨rf, ef, sf, af⟩ c f q).result
        = Except.error "TypeError: ctx.from is undefined" ∧
    (freqHandler env ⟨chat, cbq, none⟩ ⟨rf, ef, sf, af⟩ c f q).sent = [] :=
  ⟨rfl, rfl, rfl, rfl⟩

/-- Claim C3: both notification paths resolve status and frequency per
individual field: a field present on the stored record wins, a field absent
there falls back to the cached field, and with no record at all both fields
come from the cache; the book-handler admin text is built from exactly these
per-field resolutions. -/
theorem notify_field_preference (lead : Lead) (mem : CacheEntry) (s f : String)
    (l2 : Option Lead) (m2 : CacheEntry) (u : User) :
    (lead.status = some s → notifyStatusKey (some lead) mem = some s) ∧
    (lead.status = none → notifyStatusKey (some lead) mem = mem.status) ∧
    (lead.frequency = some f → notifyFreqKey (some lead) mem = some f) ∧
    (lead.frequency = none → notifyFreqKey (some lead) mem = mem.frequency) ∧
    notifyStatusKey none mem = mem.status ∧
    notifyFreqKey none mem = mem.frequency ∧
    bookNotifyText l2 m2 u
      = bookAdminText
          (match notifyUname l2 u with
           | some un => "@" ++ un
           | none => "(без username)")
          (notifyUserId l2 u)
          (humanStatus (notifyStatusKey l2 m2))
          (humanFreq (notifyFreqKey l2 m2)) := by
  refine ⟨fun h => ?_, fun h => ?_, fun h => ?_, fun h => ?_, ?_, ?_, rfl⟩ <;>
    simp [notifyStatusKey, notifyFreqKey, Option.orElse, *]

/-- Witness for C3: a record that has a status but no frequency yields the
stored status and the cached frequency. -/
theorem notify_field_preference_witness :
    notifyStatusKey (some ⟨none, none, some "anxiety", none⟩) ⟨none, some "daily"⟩
        = some "anxiety" ∧
    notifyFreqKey (some ⟨none, none, some "anxiety", none⟩) ⟨none, some "daily"⟩
        = some "daily" :=
  ⟨(notify_field_preference ⟨none, none, some "anxiety", none⟩ ⟨none, some "daily"⟩
      "anxiety" "daily" none ⟨none, none⟩ ⟨0, none, none, none⟩).1 rfl,
   (notify_field_preference ⟨none, none, some "anxiety", none⟩ ⟨none, some "daily"⟩
      "anxiety" "daily" none ⟨none, none⟩ ⟨0, none, none, none⟩).2.2.2.1 rfl⟩

/-- Claim C4 counterexample: for a booking user who does have a username, the
admin summary the book handler actually sends is the inline four-line text and
differs from the buildAdminText shape of the claim, which would carry the
profile link. -/
theorem book_admin_no_profile_link_cex :
    (bookHandler ⟨false, true, false⟩ ⟨some 7, none, some ⟨7, some "maria", none, none⟩⟩
        ⟨false, false, false, false⟩
        (fun k => if k = 7 then some ⟨some "anxiety", some "daily"⟩ else none)
        none none).adminText
      = some (bookNotifyText none ⟨some "anxiety", some "daily"⟩
          ⟨7, some "maria", none, none⟩) ∧
    bookNotifyText none ⟨some "anxiety", some "daily"⟩ ⟨7, some "maria", none, none⟩
      ≠ buildAdminText (some "maria") 7 (humanStatus (some "anxiety"))
          (humanFreq (some "daily")) := by
  refine ⟨rfl, ?_⟩
  decide

/-- Claim C4 (amended): the summary sent on booking has the fixed four-line
shape — username-or-placeholder, numeric identifier, state label, frequency
label — but never a profile link: with a username present, the claimed
buildAdminText shape equals the sent summary plus the profile-link line;
without one, the two coincide. -/
theorem book_admin_summary_shape_amended (lead : Option Lead) (mem : CacheEntry)
    (u : User) (un : String) :
    (notifyUname lead u = some un →
        buildAdminText (some un) (notifyUserId lead u)
            (humanStatus (notifyStatusKey lead mem))
            (humanFreq (notifyFreqKey lead mem))
          = bookNotifyText lead mem u
              ++ ("Профиль: " ++ ("https://t.me/" ++ un) ++ "\n")) ∧
    (notifyUname lead u = none →
        bookNotifyText lead mem u
          = buildAdminText none (notifyUserId lead u)
              (humanStatus (notifyStatusKey lead mem))
              (humanFreq (notifyFreqKey lead mem))) := by
  constructor <;> intro h <;>
    simp [bookNotifyText, buildAdminText, bookAdminText, h]

/-- Witness for C4 (amended) at a concrete user with a username. -/
theorem book_admin_summary_shape_witness :
    buildAdminText (some "maria") (notifyUserId none ⟨7, some "maria", none, none⟩)
        (humanStatus (notifyStatusKey none ⟨some "anxiety", some "daily"⟩))
        (humanFreq (notifyFreqKey none ⟨some "anxiety", some "daily"⟩))
      = bookNotifyText none ⟨some "anxiety", some "daily"⟩ ⟨7, some "maria", none, none⟩
          ++ ("Профиль: " ++ ("https://t.me/" ++ "maria") ++ "\n") :=
  (book_admin_summary_shape_amended none ⟨some "anxiety", some "daily"⟩
      ⟨7, some "maria", none, none⟩ "maria").1 rfl

/-- Claim C2: sendFinalToUser tries edit, direct send, plain reply strictly in
that order, returns true at the first channel that works without trying later
ones, and returns false exactly when no channel worked; in particular a
working reply after a failed edit and a failed send still yields true. -/
theorem sendFinalToUser_fallback_order (ctx : Ctx) (fail : TgFail) (text : String) :
    ((sendFinalToUser ctx fail text).ok
        = (hasCbMsg ctx && !fail.editFails
            || (resolveChatId ctx).isSome && !fail.sendFails
            || !fail.replyFails)) ∧
    (hasCbMsg ctx = true → fail.editFails = false →
        sendFinalToUser ctx fail text
          = ⟨true, [(AttKind.edit, true)], some text⟩) ∧
    (hasCbMsg ctx = false → (resolveChatId ctx).isSome = true →
        fail.sendFails = false →
        sendFinalToUser ctx fail text
          = ⟨true, [(AttKind.send, true)], some text⟩) ∧
    (hasCbMsg ctx = true → fail.editFails = true →
        (resolveChatId ctx).isSome = true → fail.sendFails = false →
        sendFinalToUser ctx fail text
          = ⟨true, [(AttKind.edit, false), (AttKind.send, true)], some text⟩) ∧
    (fail.editFails = true → fail.sendFails = true → fail.replyFails = false →
        (sendFinalToUser ctx fail text).ok = true) := by
  obtain ⟨chat, cbq, fu⟩ := ctx
  obtain ⟨rf, ef, sf, af⟩ := fail
  rcases cbq with _ | ⟨_ | ⟨mc, mi⟩⟩ <;>
    rcases chat with _ | ch <;> rcases fu with _ | ⟨uid, un, fn, ln⟩ <;>
    cases rf <;> cases ef <;> cases sf <;>
    simp [sendFinalToUser, hasCbMsg, resolveChatId, Option.orElse]

/-- Witness for C2: with the edit and the direct send both failing and the
reply channel up, the delivery still succeeds. -/
theorem sendFinalToUser_fallback_order_witness :
    (sendFinalToUser ⟨some 5, some ⟨some ⟨5, 9⟩⟩, some ⟨5, none, none, none⟩⟩
        ⟨false, true, true, false⟩ "x").ok = true :=
  (sendFinalToUser_fallback_order ⟨some 5, some ⟨some ⟨5, 9⟩⟩, some ⟨5, none, none, none⟩⟩
      ⟨false, true, true, false⟩ "x").2.2.2.2 rfl rfl rfl

end PsychoBot
